import Mathlib

/-!
Verification of the Agronomic Recommendation Engine of the synasix
repository.

The engine lives in two React components: a soil-aware variant embedded in
`src/components/ChatBot.tsx` (function `generateRecommendations` of the
`CropRecommendation` component defined there, lines 1143-1330) and a simpler
variant without soil type in `src/components/CropRecommendation.tsx`
(lines 65-180).  Both compute, from a temperature, an optional soil type and
three NPK nutrient indices, a ranked list of crop suggestions and an ordered
list of fertilizer suggestions.

Numeric modelling: temperatures and NPK indices are JavaScript numbers read
via `parseFloat` and `parseInt`; they are modelled as rationals.  The
temperature text field is modelled as `Option ℚ`: `none` is the empty field
(the JavaScript falsy-string check) and `some 0` stands for the literal "0"
sentinel rejected by validation.  Suitability scores are natural numbers.
JavaScript `Array.prototype.sort` with comparator
`(a, b) => b.suitability - a.suitability` is (per ECMA-262) a stable sort by
descending suitability; it is modelled by `List.insertionSort` with the
relation `suitabilityGE`, which is a stable sort.
-/

namespace Synasix

/-- The closed soil category set offered by the soil type select control in
`ChatBot.tsx` (values "loamy", "clayey", "black", "sandy", "red"). -/
inductive SoilType where
  | loamy
  | clayey
  | black
  | sandy
  | red
deriving DecidableEq, Fintype, Repr

/-- The string value carried by each soil select item, as compared by the
`soilType === '...'` checks and interpolated into reason texts. -/
def soilTypeStr : SoilType → String
  | SoilType.loamy => "loamy"
  | SoilType.clayey => "clayey"
  | SoilType.black => "black"
  | SoilType.sandy => "sandy"
  | SoilType.red => "red"

/-- The three nutrient indices (`NPKValues` interface in both components). -/
structure NPKValues where
  nitrogen : ℚ
  phosphorus : ℚ
  potassium : ℚ
deriving DecidableEq, Repr

/-- A crop suggestion record (`CropSuggestion` interface). -/
structure CropSuggestion where
  name : String
  suitability : ℕ
  reason : String
  growthPeriod : String
  expectedYield : String
  waterRequirement : String
deriving DecidableEq, Repr

/-- A fertilizer suggestion record (`FertilizerSuggestion` interface). -/
structure FertilizerSuggestion where
  name : String
  type : String
  application : String
  quantity : String
  timing : String
deriving DecidableEq, Repr

/-- Rice score and reason resolution, ChatBot.tsx lines 1171-1181: base 85
with generic reason, overridden for clayey/black (95, interpolated reason)
and loamy (90). -/
def riceScoreReason (soil : SoilType) : ℕ × String :=
  if soil = SoilType.clayey ∨ soil = SoilType.black then
    (95, "Optimal temperature and " ++ soilTypeStr soil ++
      " soil excellent for rice cultivation with high water retention")
  else if soil = SoilType.loamy then
    (90, "Optimal temperature and loamy soil good for rice cultivation")
  else
    (85, "Optimal temperature for rice cultivation")

/-- Wheat score and reason resolution, ChatBot.tsx lines 1193-1203. -/
def wheatScoreReason (soil : SoilType) : ℕ × String :=
  if soil = SoilType.loamy ∨ soil = SoilType.black then
    (90, "Good temperature range and " ++ soilTypeStr soil ++
      " soil ideal for wheat cultivation")
  else if soil = SoilType.clayey then
    (85, "Good temperature and clayey soil suitable for wheat")
  else
    (80, "Good temperature range for wheat")

/-- Cotton score and reason resolution, ChatBot.tsx lines 1215-1225. -/
def cottonScoreReason (soil : SoilType) : ℕ × String :=
  if soil = SoilType.black ∨ soil = SoilType.red then
    (90, "High potassium, warm temperature and " ++ soilTypeStr soil ++
      " soil excellent for cotton cultivation")
  else if soil = SoilType.loamy then
    (85, "High potassium, warm temperature and loamy soil good for cotton")
  else
    (75, "High potassium and warm temperature for cotton")

/-- Potato score and reason resolution, ChatBot.tsx lines 1237-1247. -/
def potatoScoreReason (soil : SoilType) : ℕ × String :=
  if soil = SoilType.loamy ∨ soil = SoilType.sandy then
    (85, "Cool temperature and " ++ soilTypeStr soil ++
      " soil excellent for potato cultivation with good drainage")
  else if soil = SoilType.red then
    (80, "Cool temperature and red soil good for potato cultivation")
  else
    (70, "Cool temperature suitable for potato")

/-- The rice suggestion pushed at ChatBot.tsx lines 1183-1190. -/
def mkRice (soil : SoilType) : CropSuggestion :=
  { name := "Rice"
    suitability := (riceScoreReason soil).1
    reason := (riceScoreReason soil).2
    growthPeriod := "120-140 days"
    expectedYield := "4-6 tons/hectare"
    waterRequirement := "High (1200-1500mm)" }

/-- The wheat suggestion pushed at ChatBot.tsx lines 1205-1212. -/
def mkWheat (soil : SoilType) : CropSuggestion :=
  { name := "Wheat"
    suitability := (wheatScoreReason soil).1
    reason := (wheatScoreReason soil).2
    growthPeriod := "120-150 days"
    expectedYield := "3-4 tons/hectare"
    waterRequirement := "Medium (450-650mm)" }

/-- The cotton suggestion pushed at ChatBot.tsx lines 1227-1234. -/
def mkCotton (soil : SoilType) : CropSuggestion :=
  { name := "Cotton"
    suitability := (cottonScoreReason soil).1
    reason := (cottonScoreReason soil).2
    growthPeriod := "160-200 days"
    expectedYield := "2-3 tons/hectare"
    waterRequirement := "Medium (700-1200mm)" }

/-- The potato suggestion pushed at ChatBot.tsx lines 1249-1256. -/
def mkPotato (soil : SoilType) : CropSuggestion :=
  { name := "Potato"
    suitability := (potatoScoreReason soil).1
    reason := (potatoScoreReason soil).2
    growthPeriod := "90-120 days"
    expectedYield := "20-25 tons/hectare"
    waterRequirement := "Medium (500-700mm)" }

/-- The groundnut bonus suggestion, ChatBot.tsx lines 1260-1269. -/
def groundnutSuggestion : CropSuggestion :=
  { name := "Groundnut"
    suitability := 88
    reason := "Sandy soil with good drainage perfect for groundnut cultivation"
    growthPeriod := "120-130 days"
    expectedYield := "2-3 tons/hectare"
    waterRequirement := "Medium (500-700mm)" }

/-- The millets bonus suggestion, ChatBot.tsx lines 1271-1280. -/
def milletsSuggestion : CropSuggestion :=
  { name := "Millets"
    suitability := 85
    reason := "Red soil with good mineral content ideal for drought-resistant millets"
    growthPeriod := "75-100 days"
    expectedYield := "1-2 tons/hectare"
    waterRequirement := "Low (300-500mm)" }

/-- The crop candidate list in push order, ChatBot.tsx lines 1167-1280: four
general temperature-range rules (rice, wheat, cotton, potato) followed by the
two soil-specific bonus rules (groundnut for sandy, millets for red). -/
def cropCandidates (temp : ℚ) (soil : SoilType) (npk : NPKValues) :
    List CropSuggestion :=
  (if 25 ≤ temp ∧ temp ≤ 35 then [mkRice soil] else []) ++
  (if 20 ≤ temp ∧ temp ≤ 30 then [mkWheat soil] else []) ++
  (if 25 ≤ temp ∧ temp ≤ 40 ∧ 40 < npk.potassium then [mkCotton soil] else []) ++
  (if 15 ≤ temp ∧ temp ≤ 25 then [mkPotato soil] else []) ++
  (if soil = SoilType.sandy ∧ 20 ≤ temp ∧ temp ≤ 35 then [groundnutSuggestion] else []) ++
  (if soil = SoilType.red ∧ 20 ≤ temp ∧ temp ≤ 30 then [milletsSuggestion] else [])

/-- Ranking relation: `a` precedes `b` when `b.suitability ≤ a.suitability`.
The comparator `(a, b) => b.suitability - a.suitability` sorts descending. -/
def suitabilityGE (a b : CropSuggestion) : Prop :=
  b.suitability ≤ a.suitability

instance : DecidableRel suitabilityGE :=
  fun a b => inferInstanceAs (Decidable (b.suitability ≤ a.suitability))

instance : IsTotal CropSuggestion suitabilityGE :=
  ⟨fun a b => le_total b.suitability a.suitability⟩

instance : IsTrans CropSuggestion suitabilityGE :=
  ⟨fun _ _ _ h1 h2 => le_trans h2 h1⟩

/-- The ranking stage, ChatBot.tsx line 1323:
`cropSuggestions.sort((a, b) => b.suitability - a.suitability)`; JavaScript
sort is stable, modelled by the stable `insertionSort`. -/
def rankCrops (l : List CropSuggestion) : List CropSuggestion :=
  l.insertionSort suitabilityGE

/-- The urea entry, ChatBot.tsx lines 1283-1291. -/
def ureaSuggestion : FertilizerSuggestion :=
  { name := "Urea"
    type := "Nitrogen Fertilizer"
    application := "Soil Application"
    quantity := "100-150 kg/hectare"
    timing := "Pre-sowing and top-dressing" }

/-- The DAP entry, ChatBot.tsx lines 1293-1301. -/
def dapSuggestion : FertilizerSuggestion :=
  { name := "DAP (Di-Ammonium Phosphate)"
    type := "Phosphorus Fertilizer"
    application := "Basal Application"
    quantity := "100-125 kg/hectare"
    timing := "At the time of sowing" }

/-- The muriate-of-potash entry, ChatBot.tsx lines 1303-1311. -/
def mopSuggestion : FertilizerSuggestion :=
  { name := "Muriate of Potash"
    type := "Potassium Fertilizer"
    application := "Soil Application"
    quantity := "80-100 kg/hectare"
    timing := "Pre-sowing" }

/-- The unconditional vermicompost entry, ChatBot.tsx lines 1314-1320. -/
def vermicompostSuggestion : FertilizerSuggestion :=
  { name := "Vermicompost"
    type := "Organic Fertilizer"
    application := "Soil Incorporation"
    quantity := "2-3 tons/hectare"
    timing := "15-20 days before sowing" }

/-- Fertilizer rule evaluation of the soil-aware variant, ChatBot.tsx lines
1283-1320: urea when nitrogen < 50, DAP when phosphorus < 40, muriate of
potash when potassium < 45, then always vermicompost. -/
def fertilizerRecs (npk : NPKValues) : List FertilizerSuggestion :=
  (if npk.nitrogen < 50 then [ureaSuggestion] else []) ++
  (if npk.phosphorus < 40 then [dapSuggestion] else []) ++
  (if npk.potassium < 45 then [mopSuggestion] else []) ++
  [vermicompostSuggestion]

/-- Fertilizer rule evaluation of the simple variant,
CropRecommendation.tsx lines 132-170 (textually the same thresholds and
entries as the soil-aware variant). -/
def fertilizerRecsSimple (npk : NPKValues) : List FertilizerSuggestion :=
  (if npk.nitrogen < 50 then
    [{ name := "Urea"
       type := "Nitrogen Fertilizer"
       application := "Soil Application"
       quantity := "100-150 kg/hectare"
       timing := "Pre-sowing and top-dressing" }] else []) ++
  (if npk.phosphorus < 40 then
    [{ name := "DAP (Di-Ammonium Phosphate)"
       type := "Phosphorus Fertilizer"
       application := "Basal Application"
       quantity := "100-125 kg/hectare"
       timing := "At the time of sowing" }] else []) ++
  (if npk.potassium < 45 then
    [{ name := "Muriate of Potash"
       type := "Potassium Fertilizer"
       application := "Soil Application"
       quantity := "80-100 kg/hectare"
       timing := "Pre-sowing" }] else []) ++
  [{ name := "Vermicompost"
     type := "Organic Fertilizer"
     application := "Soil Incorporation"
     quantity := "2-3 tons/hectare"
     timing := "15-20 days before sowing" }]

/-- The engine input read by the soil-aware `generateRecommendations`:
temperature text field (`none` = empty, `some 0` = the "0" sentinel),
optional soil selection, NPK values. -/
structure EngineInput where
  temperature : Option ℚ
  soilType : Option SoilType
  npk : NPKValues
deriving DecidableEq

/-- The three validation failures, one per guard clause of
`generateRecommendations` (ChatBot.tsx lines 1144-1157). -/
inductive ValidationError where
  | missingTemperature
  | missingSoilType
  | missingNPK
deriving DecidableEq, Repr

/-- The result value stored by `setRecommendations`: ranked crops plus
fertilizer list. -/
structure RecommendationResult where
  crops : List CropSuggestion
  fertilizers : List FertilizerSuggestion
deriving DecidableEq, Repr

/-- The validator: the three guard clauses of ChatBot.tsx lines 1144-1157 in
source order, short-circuiting at the first failure. -/
def validate (i : EngineInput) : Option ValidationError :=
  match i.temperature with
  | none => some ValidationError.missingTemperature
  | some t =>
    if t = 0 then some ValidationError.missingTemperature
    else
      match i.soilType with
      | none => some ValidationError.missingSoilType
      | some _ =>
        if i.npk.nitrogen = 0 ∧ i.npk.phosphorus = 0 ∧ i.npk.potassium = 0 then
          some ValidationError.missingNPK
        else none

/-- The soil-aware `generateRecommendations` (ChatBot.tsx lines 1143-1330):
the guard clauses in source order, then crop rule evaluation, ranking and
fertilizer rule evaluation on the validated input. -/
def generateRecommendations (i : EngineInput) :
    Except ValidationError RecommendationResult :=
  match i.temperature with
  | none => Except.error ValidationError.missingTemperature
  | some t =>
    if t = 0 then Except.error ValidationError.missingTemperature
    else
      match i.soilType with
      | none => Except.error ValidationError.missingSoilType
      | some soil =>
        if i.npk.nitrogen = 0 ∧ i.npk.phosphorus = 0 ∧ i.npk.potassium = 0 then
          Except.error ValidationError.missingNPK
        else
          Except.ok
            { crops := rankCrops (cropCandidates t soil i.npk)
              fertilizers := fertilizerRecs i.npk }

/-- The component state touched by the soil-aware evaluation: the three
input fields and the `recommendations` state cell. -/
structure ComponentState where
  temperature : Option ℚ
  soilType : Option SoilType
  npk : NPKValues
  recommendations : Option RecommendationResult
deriving DecidableEq

/-- One press of the "Get AI Recommendations" button: on a validation
failure only a toast is shown and the state is unchanged; on success
`setRecommendations` stores the result. -/
def evalStep (s : ComponentState) : ComponentState :=
  match generateRecommendations ⟨s.temperature, s.soilType, s.npk⟩ with
  | Except.error _ => s
  | Except.ok r => { s with recommendations := some r }

/-- Position of a crop name in the fixed rule table (push order of
ChatBot.tsx lines 1171-1280). -/
def cropTableIdx (name : String) : ℕ :=
  if name = "Rice" then 0
  else if name = "Wheat" then 1
  else if name = "Cotton" then 2
  else if name = "Potato" then 3
  else if name = "Groundnut" then 4
  else if name = "Millets" then 5
  else 6

/-- Substring test on character lists, used to state that a reason text
mentions a soil category name. -/
def charListHasSub (pat : List Char) : List Char → Bool
  | [] => pat.isEmpty
  | c :: rest => pat.isPrefixOf (c :: rest) || charListHasSub pat rest

/-- A reason string mentions a soil name when the soil name occurs in it. -/
def mentions (pat s : String) : Bool :=
  charListHasSub pat.toList s.toList

/-- Every reason held in a soil-modifier mapping for `soil` mentions the
soil category name (vacuously true when the mapping has no entry). -/
def modifierMentionsSoil (m : SoilType → Option (ℕ × String)) (soil : SoilType) : Bool :=
  match m soil with
  | none => true
  | some p => mentions (soilTypeStr soil) p.2

/-- The rice soil-modifier mapping (the `if (soilType === ...)` branches of
ChatBot.tsx lines 1175-1181, read as a lookup table). -/
def riceModifiers : SoilType → Option (ℕ × String)
  | SoilType.clayey => some (95,
      "Optimal temperature and clayey soil excellent for rice cultivation with high water retention")
  | SoilType.black => some (95,
      "Optimal temperature and black soil excellent for rice cultivation with high water retention")
  | SoilType.loamy => some (90,
      "Optimal temperature and loamy soil good for rice cultivation")
  | _ => none

/-- The wheat soil-modifier mapping (ChatBot.tsx lines 1197-1203). -/
def wheatModifiers : SoilType → Option (ℕ × String)
  | SoilType.loamy => some (90,
      "Good temperature range and loamy soil ideal for wheat cultivation")
  | SoilType.black => some (90,
      "Good temperature range and black soil ideal for wheat cultivation")
  | SoilType.clayey => some (85,
      "Good temperature and clayey soil suitable for wheat")
  | _ => none

/-- The cotton soil-modifier mapping (ChatBot.tsx lines 1219-1225). -/
def cottonModifiers : SoilType → Option (ℕ × String)
  | SoilType.black => some (90,
      "High potassium, warm temperature and black soil excellent for cotton cultivation")
  | SoilType.red => some (90,
      "High potassium, warm temperature and red soil excellent for cotton cultivation")
  | SoilType.loamy => some (85,
      "High potassium, warm temperature and loamy soil good for cotton")
  | _ => none

/-- The potato soil-modifier mapping (ChatBot.tsx lines 1241-1247). -/
def potatoModifiers : SoilType → Option (ℕ × String)
  | SoilType.loamy => some (85,
      "Cool temperature and loamy soil excellent for potato cultivation with good drainage")
  | SoilType.sandy => some (85,
      "Cool temperature and sandy soil excellent for potato cultivation with good drainage")
  | SoilType.red => some (80,
      "Cool temperature and red soil good for potato cultivation")
  | _ => none

/-- The concrete input of the black-soil scenario: temperature 28, black
soil, NPK (45, 35, 50). -/
def inputC1 : EngineInput :=
  ⟨some 28, some SoilType.black, ⟨45, 35, 50⟩⟩

/-- The result the engine computes for `inputC1`: Rice 95, then the 90-90
tie Wheat before Cotton (stable sort keeps table order), and the urea, DAP,
vermicompost fertilizer sequence (potassium 50 is not below 45). -/
def rC1 : RecommendationResult :=
  ⟨[mkRice SoilType.black, mkWheat SoilType.black, mkCotton SoilType.black],
   [ureaSuggestion, dapSuggestion, vermicompostSuggestion]⟩

/-- A sandy-soil input at temperature 22 with small NPK values. -/
def inputSandy : EngineInput :=
  ⟨some 22, some SoilType.sandy, ⟨10, 10, 10⟩⟩

/-- The result the engine computes for `inputSandy`: groundnut 88,
potato 85 (sandy modifier), wheat 80 (base), and all four fertilizers. -/
def rSandy : RecommendationResult :=
  ⟨[groundnutSuggestion, mkPotato SoilType.sandy, mkWheat SoilType.sandy],
   [ureaSuggestion, dapSuggestion, mopSuggestion, vermicompostSuggestion]⟩

instance : DecidableEq (Except ValidationError RecommendationResult) := fun a b =>
  match a, b with
  | Except.error e1, Except.error e2 =>
    if h : e1 = e2 then isTrue (by rw [h]) else
      isFalse (fun hc => h (by injection hc))
  | Except.ok r1, Except.ok r2 =>
    if h : r1 = r2 then isTrue (by rw [h]) else
      isFalse (fun hc => h (by injection hc))
  | Except.error _, Except.ok _ => isFalse (fun hc => by injection hc)
  | Except.ok _, Except.error _ => isFalse (fun hc => by injection hc)

/-- A successful evaluation forces a present temperature and soil type, and
the result is the ranked crop candidates plus the fertilizer list. -/
theorem gen_ok_shape {i : EngineInput} {r : RecommendationResult}
    (h : generateRecommendations i = Except.ok r) :
    ∃ t soil, i.temperature = some t ∧ i.soilType = some soil ∧
      r = ⟨rankCrops (cropCandidates t soil i.npk), fertilizerRecs i.npk⟩ := by
  rcases i with ⟨temp, soilOpt, npk⟩
  cases temp with
  | none => exact absurd h (by simp [generateRecommendations])
  | some t =>
    cases soilOpt with
    | none =>
      simp only [generateRecommendations] at h
      split_ifs at h
    | some soil =>
      simp only [generateRecommendations] at h
      by_cases h0 : t = 0
      · rw [if_pos h0] at h; exact Except.noConfusion h
      · rw [if_neg h0] at h
        by_cases hz : npk.nitrogen = 0 ∧ npk.phosphorus = 0 ∧ npk.potassium = 0
        · rw [if_pos hz] at h; exact Except.noConfusion h
        · rw [if_neg hz] at h
          injection h with h2
          exact ⟨t, soil, rfl, rfl, h2.symm⟩

/-- A valid input always evaluates to a result. -/
theorem gen_ok_of_validate {i : EngineInput} (h : validate i = none) :
    ∃ r, generateRecommendations i = Except.ok r := by
  rcases i with ⟨temp, soilOpt, npk⟩
  cases temp with
  | none => simp [validate] at h
  | some t =>
    cases soilOpt with
    | none =>
      simp only [validate] at h
      split_ifs at h
    | some soil =>
      simp only [validate] at h
      simp only [generateRecommendations]
      by_cases h0 : t = 0
      · rw [if_pos h0] at h; simp at h
      · rw [if_neg h0] at h
        by_cases hz : npk.nitrogen = 0 ∧ npk.phosphorus = 0 ∧ npk.potassium = 0
        · rw [if_pos hz] at h; simp at h
        · rw [if_neg h0, if_neg hz]
          exact ⟨_, rfl⟩

/-- Inserting into a list whose pairs satisfy the stability invariant keeps
it, provided the new element is `s`-below everything already present. -/
theorem orderedInsert_pairwise_stable (r s : CropSuggestion → CropSuggestion → Prop)
    [DecidableRel r] (x : CropSuggestion) (M : List CropSuggestion)
    (hM : M.Pairwise (fun a b => r b a → s a b)) (hx : ∀ y ∈ M, s x y) :
    (M.orderedInsert r x).Pairwise (fun a b => r b a → s a b) := by
  induction M with
  | nil => simp [List.orderedInsert]
  | cons y ys ih =>
    rcases List.pairwise_cons.mp hM with ⟨hy, hys⟩
    rw [List.orderedInsert]
    by_cases h : r x y
    · rw [if_pos h]
      exact List.pairwise_cons.mpr ⟨fun z hz _ => hx z hz, hM⟩
    · rw [if_neg h]
      refine List.pairwise_cons.mpr
        ⟨?_, ih hys (fun z hz => hx z (List.mem_cons_of_mem _ hz))⟩
      intro z hz
      rcases (List.mem_orderedInsert r).mp hz with rfl | hz'
      · exact fun hrx => absurd hrx h
      · exact hy z hz'

/-- The stable sort keeps the original relative order of elements that the
sorting relation cannot distinguish. -/
theorem insertionSort_pairwise_stable (r s : CropSuggestion → CropSuggestion → Prop)
    [DecidableRel r] :
    ∀ l : List CropSuggestion, l.Pairwise s →
      (l.insertionSort r).Pairwise (fun a b => r b a → s a b)
  | [], _ => by simp
  | x :: l, h => by
    rw [List.insertionSort]
    rcases List.pairwise_cons.mp h with ⟨hx, hl⟩
    exact orderedInsert_pairwise_stable r s x _
      (insertionSort_pairwise_stable r s l hl)
      (fun y hy => hx y ((List.mem_insertionSort r).mp hy))

/-- The crop candidate list is always emitted in strictly increasing
rule-table order. -/
theorem cropCandidates_pairwise_tableIdx (t : ℚ) (soil : SoilType) (npk : NPKValues) :
    (cropCandidates t soil npk).Pairwise
      (fun a b => cropTableIdx a.name < cropTableIdx b.name) := by
  cases soil <;> simp only [cropCandidates] <;> split_ifs <;> decide

/-- Claim C1 counterexample: at temperature 28, black soil, NPK
(45, 35, 50) the engine returns no Wheat entry with score 85 (black soil
raises wheat to 90), and the ranking is not Rice, Cotton, Wheat (the 90-90
tie keeps Wheat, pushed first, before Cotton). -/
theorem blackSoil_scenario_counterexample :
    generateRecommendations inputC1 = Except.ok rC1 ∧
    ¬(∃ c ∈ rC1.crops, c.name = "Wheat" ∧ c.suitability = 85) ∧
    rC1.crops.map (fun c => c.name) ≠ ["Rice", "Cotton", "Wheat"] := by
  decide

/-- Claim C1 amended: for temperature 28, black soil, NPK (45, 35, 50) the
crop result is Rice with score 95, Wheat with score 90 and Cotton with
score 90, in that order (descending score, the 90-90 tie broken by rule
table order), each with a reason mentioning "black". -/
theorem blackSoil_scenario_actual :
    generateRecommendations inputC1 = Except.ok rC1 ∧
    rC1.crops.map (fun c => (c.name, c.suitability)) =
      [("Rice", 95), ("Wheat", 90), ("Cotton", 90)] ∧
    (∀ c ∈ rC1.crops, mentions "black" c.reason = true) := by
  decide

/-- Claim C2: for every validated NPK input the fertilizer list is never
empty, its last element is always the vermicompost entry, it is exactly the
vermicompost entry alone when all three nutrients meet their thresholds,
and the input (30, 25, 20) yields urea, DAP, muriate of potash and
vermicompost in that exact order. -/
theorem fertilizer_sequence_spec (npk : NPKValues)
    (h : ¬(npk.nitrogen = 0 ∧ npk.phosphorus = 0 ∧ npk.potassium = 0)) :
    fertilizerRecs npk ≠ [] ∧
    (fertilizerRecs npk).getLast? = some vermicompostSuggestion ∧
    ((50 ≤ npk.nitrogen ∧ 40 ≤ npk.phosphorus ∧ 45 ≤ npk.potassium) →
      fertilizerRecs npk = [vermicompostSuggestion]) ∧
    fertilizerRecs ⟨30, 25, 20⟩ =
      [ureaSuggestion, dapSuggestion, mopSuggestion, vermicompostSuggestion] := by
  refine ⟨?_, ?_, ?_, by decide⟩
  · unfold fertilizerRecs
    split_ifs <;> simp
  · unfold fertilizerRecs
    split_ifs <;> rfl
  · rintro ⟨h1, h2, h3⟩
    unfold fertilizerRecs
    rw [if_neg (not_lt.mpr h1), if_neg (not_lt.mpr h2), if_neg (not_lt.mpr h3)]
    rfl

/-- Claim C2 witness: the concrete NPK input (30, 25, 20) is validated and
produces the four entries in order. -/
theorem fertilizer_sequence_spec_witness :
    fertilizerRecs ⟨30, 25, 20⟩ =
      [ureaSuggestion, dapSuggestion, mopSuggestion, vermicompostSuggestion] :=
  (fertilizer_sequence_spec ⟨30, 25, 20⟩ (by decide)).2.2.2

/-- Claim C3: validation checks temperature, then soil type, then NPK, in
that fixed order, short-circuiting at the first failure with exactly that
one error and producing no recommendation result; in particular an input
missing both the temperature and all three NPK values reports only the
missing-temperature error. -/
theorem validation_short_circuit (i : EngineInput) :
    ((i.temperature = none ∨ i.temperature = some 0) →
      generateRecommendations i = Except.error ValidationError.missingTemperature) ∧
    (∀ t, i.temperature = some t → t ≠ 0 → i.soilType = none →
      generateRecommendations i = Except.error ValidationError.missingSoilType) ∧
    (∀ t soil, i.temperature = some t → t ≠ 0 → i.soilType = some soil →
      i.npk.nitrogen = 0 → i.npk.phosphorus = 0 → i.npk.potassium = 0 →
      generateRecommendations i = Except.error ValidationError.missingNPK) ∧
    (i.temperature = none → i.npk.nitrogen = 0 → i.npk.phosphorus = 0 →
      i.npk.potassium = 0 →
      generateRecommendations i = Except.error ValidationError.missingTemperature) := by
  rcases i with ⟨temp, soilOpt, npk⟩
  refine ⟨?_, ?_, ?_, ?_⟩
  · rintro (h | h) <;> subst h <;> simp [generateRecommendations]
  · rintro t rfl ht rfl
    simp [generateRecommendations, ht]
  · rintro t soil rfl ht rfl h1 h2 h3
    simp [generateRecommendations, ht]
    exact ⟨h1, h2, h3⟩
  · rintro rfl _ _ _
    simp [generateRecommendations]

/-- Claim C3 witness: the input missing both the temperature field and all
three NPK values reports only the missing-temperature error. -/
theorem validation_short_circuit_witness :
    generateRecommendations ⟨none, none, ⟨0, 0, 0⟩⟩ =
      Except.error ValidationError.missingTemperature :=
  (validation_short_circuit ⟨none, none, ⟨0, 0, 0⟩⟩).2.2.2 rfl rfl rfl rfl

/-- Claim C4: the crop list of every successful evaluation is sorted
non-increasingly by suitability — every element's score is at least the
next one's. -/
theorem crops_sorted_descending (i : EngineInput) (r : RecommendationResult)
    (h : generateRecommendations i = Except.ok r) :
    r.crops.Chain' (fun a b => b.suitability ≤ a.suitability) := by
  obtain ⟨t, soil, _, _, rfl⟩ := gen_ok_shape h
  exact List.Pairwise.chain' (List.sorted_insertionSort suitabilityGE _)

/-- Claim C4 witness: the black-soil scenario result is sorted
non-increasingly. -/
theorem crops_sorted_descending_witness :
    rC1.crops.Chain' (fun a b => b.suitability ≤ a.suitability) :=
  crops_sorted_descending inputC1 rC1 (by decide)

/-- Claim C5: whenever two suggestions in a successful result carry equal
suitability scores, the earlier one belongs to an earlier rule of the fixed
crop-rule table (Rice, Wheat, Cotton, Potato, Groundnut, Millets) — the
ranking sort is stable with respect to rule-table order. -/
theorem ranking_stable_by_table_order (i : EngineInput) (r : RecommendationResult)
    (h : generateRecommendations i = Except.ok r) :
    r.crops.Pairwise
      (fun a b => a.suitability = b.suitability →
        cropTableIdx a.name < cropTableIdx b.name) := by
  obtain ⟨t, soil, _, _, rfl⟩ := gen_ok_shape h
  have hstable := insertionSort_pairwise_stable suitabilityGE
    (fun a b => cropTableIdx a.name < cropTableIdx b.name)
    (cropCandidates t soil i.npk) (cropCandidates_pairwise_tableIdx t soil i.npk)
  exact hstable.imp fun hab heq => hab (le_of_eq heq)

/-- Claim C5 witness: in the black-soil scenario the 90-90 tie between
Wheat and Cotton respects table order. -/
theorem ranking_stable_by_table_order_witness :
    rC1.crops.Pairwise
      (fun a b => a.suitability = b.suitability →
        cropTableIdx a.name < cropTableIdx b.name) :=
  ranking_stable_by_table_order inputC1 rC1 (by decide)

/-- Claim C6: with sandy soil and any temperature in the bonus rule range
(such as 22), every successful evaluation includes the groundnut suggestion
with score 88, whatever the NPK values. -/
theorem sandy_groundnut_bonus (t : ℚ) (npk : NPKValues) (r : RecommendationResult)
    (h : generateRecommendations ⟨some t, some SoilType.sandy, npk⟩ = Except.ok r)
    (h1 : 20 ≤ t) (h2 : t ≤ 35) :
    groundnutSuggestion ∈ r.crops ∧ groundnutSuggestion.suitability = 88 ∧
      groundnutSuggestion.name = "Groundnut" := by
  obtain ⟨t', soil', ht', hs', rfl⟩ := gen_ok_shape h
  injection ht' with ht2
  injection hs' with hs2
  subst ht2
  subst hs2
  refine ⟨?_, rfl, rfl⟩
  apply (List.mem_insertionSort suitabilityGE).mpr
  show groundnutSuggestion ∈ cropCandidates t SoilType.sandy npk
  unfold cropCandidates
  rw [if_pos (⟨rfl, h1, h2⟩ : SoilType.sandy = SoilType.sandy ∧ 20 ≤ t ∧ t ≤ 35)]
  simp

/-- Claim C6 witness: at temperature 22, sandy soil, NPK (10, 10, 10) the
groundnut suggestion is in the result. -/
theorem sandy_groundnut_bonus_witness :
    groundnutSuggestion ∈ rSandy.crops :=
  (sandy_groundnut_bonus 22 ⟨10, 10, 10⟩ rSandy (by decide) (by decide)
    (by decide)).1

/-- Claim C7: every crop rule resolves its score and reason through its
soil-modifier mapping — the overridden score together with a reason that
names the soil category when the input soil is in the mapping, the base
score and generic reason otherwise (for example rice on sandy or red soil
keeps 85 with the generic reason) — and each fired rule's emitted
suggestion carries exactly that resolution. -/
theorem soil_modifier_resolution :
    (∀ soil,
      riceScoreReason soil =
        (riceModifiers soil).getD (85, "Optimal temperature for rice cultivation") ∧
      wheatScoreReason soil =
        (wheatModifiers soil).getD (80, "Good temperature range for wheat") ∧
      cottonScoreReason soil =
        (cottonModifiers soil).getD (75, "High potassium and warm temperature for cotton") ∧
      potatoScoreReason soil =
        (potatoModifiers soil).getD (70, "Cool temperature suitable for potato")) ∧
    (∀ soil,
      modifierMentionsSoil riceModifiers soil = true ∧
      modifierMentionsSoil wheatModifiers soil = true ∧
      modifierMentionsSoil cottonModifiers soil = true ∧
      modifierMentionsSoil potatoModifiers soil = true) ∧
    (∀ (t : ℚ) (soil : SoilType) (npk : NPKValues) (r : RecommendationResult),
      generateRecommendations ⟨some t, some soil, npk⟩ = Except.ok r →
        ((25 ≤ t ∧ t ≤ 35) → mkRice soil ∈ r.crops) ∧
        ((20 ≤ t ∧ t ≤ 30) → mkWheat soil ∈ r.crops) ∧
        ((25 ≤ t ∧ t ≤ 40 ∧ 40 < npk.potassium) → mkCotton soil ∈ r.crops) ∧
        ((15 ≤ t ∧ t ≤ 25) → mkPotato soil ∈ r.crops)) ∧
    riceScoreReason SoilType.sandy = (85, "Optimal temperature for rice cultivation") ∧
    riceScoreReason SoilType.red = (85, "Optimal temperature for rice cultivation") := by
  refine ⟨by decide, by decide, ?_, by decide, by decide⟩
  intro t soil npk r h
  obtain ⟨t', soil', ht', hs', rfl⟩ := gen_ok_shape h
  injection ht' with ht2
  injection hs' with hs2
  subst ht2
  subst hs2
  refine ⟨fun hc => ?_, fun hc => ?_, fun hc => ?_, fun hc => ?_⟩ <;>
    apply (List.mem_insertionSort suitabilityGE).mpr
  · show mkRice soil ∈ cropCandidates t soil npk
    unfold cropCandidates
    rw [if_pos hc]
    simp
  · show mkWheat soil ∈ cropCandidates t soil npk
    unfold cropCandidates
    rw [if_pos hc]
    simp
  · show mkCotton soil ∈ cropCandidates t soil npk
    unfold cropCandidates
    rw [if_pos hc]
    simp
  · show mkPotato soil ∈ cropCandidates t soil npk
    unfold cropCandidates
    rw [if_pos hc]
    simp

/-- Claim C7 witness: in the black-soil scenario the fired rice rule emits
the black-soil override, present in the result. -/
theorem soil_modifier_resolution_witness :
    mkRice SoilType.black ∈ rC1.crops :=
  (soil_modifier_resolution.2.2.1 28 SoilType.black ⟨45, 35, 50⟩ rC1
    (by decide)).1 (by decide)

/-- Claim C8: rule evaluation after successful validation is total — every
validated input produces a result — and an empty crop list is a possible
valid, non-error outcome (temperature 45 with loamy soil fires no rule
while the fertilizer list is still non-empty). -/
theorem evaluation_total_after_validation :
    (∀ i : EngineInput, validate i = none →
      ∃ r, generateRecommendations i = Except.ok r) ∧
    (∃ r, generateRecommendations ⟨some 45, some SoilType.loamy, ⟨10, 10, 10⟩⟩ =
        Except.ok r ∧ r.crops = [] ∧ r.fertilizers ≠ []) := by
  refine ⟨fun i h => gen_ok_of_validate h,
    ⟨⟨[], [ureaSuggestion, dapSuggestion, mopSuggestion, vermicompostSuggestion]⟩,
      by decide, rfl, by decide⟩⟩

/-- Claim C8 witness: a concrete validated input evaluates to a result. -/
theorem evaluation_total_after_validation_witness :
    ∃ r, generateRecommendations ⟨some 30, some SoilType.loamy, ⟨1, 1, 1⟩⟩ =
      Except.ok r :=
  evaluation_total_after_validation.1 ⟨some 30, some SoilType.loamy, ⟨1, 1, 1⟩⟩
    (by decide)

/-- Claim C9: the engine is deterministic — pressing the evaluate button a
second time on the unchanged inputs recomputes exactly the same stored
result, since nothing in the rule tables or state mutates between
evaluations. -/
theorem evaluation_idempotent (s : ComponentState) :
    evalStep (evalStep s) = evalStep s := by
  rcases s with ⟨temp, soil, npk, rec⟩
  cases hg : generateRecommendations ⟨temp, soil, npk⟩ with
  | error e => simp [evalStep, hg]
  | ok r => simp [evalStep, hg]

/-- Claim C10: the simple variant (CropRecommendation.tsx) and the
soil-aware variant (ChatBot.tsx) compute identical fertilizer sequences for
every NPK input. -/
theorem fertilizer_variants_agree (npk : NPKValues) :
    fertilizerRecsSimple npk = fertilizerRecs npk := rfl

end Synasix
